import Mathlib

/-!
Verification development for the lightyear client clock-sync engine and
input ring buffer (`src/lightyear/src/client/sync.rs`,
`src/lightyear/src/client/input/native.rs`,
`src/lightyear/src/client/interpolation/plugin.rs`).

Durations (`std::time::Duration`) are embedded as natural numbers of
nanoseconds.  `WrappedTime` is the repository's wrapping clock value: a
microsecond timestamp stored in a `u32`, i.e. wrapping modulo 2^32.
Ticks are 16-bit wrapping counters (`Fin 65536`).  `f32` quantities
(speed factors, smoothing coefficients, margins) are embedded as exact
rationals; `Duration::mul_f32` and the `f32` scalar scaling of
`WrappedTime` are embedded as exact rational multiplication followed by
truncation toward zero (the `as u32` cast of the code).
-/

namespace LightyearSpec

/-- A `std::time::Duration`, as a number of nanoseconds. -/
abbrev Duration := Nat

/-- `Duration::as_micros`. -/
def Duration.as_micros (d : Duration) : Nat := d / 1000

/-- A 16-bit wrapping tick counter (`Tick(pub u16)` of the shared tick manager). -/
abbrev Tick := Fin 65536

/-- Modulus of the wrapping clock: `WrappedTime` stores microseconds in a `u32`. -/
abbrev WT_MOD : Nat := 4294967296

/-- Modelled from the spec: the "wrapping clock value: fixed-modulus microsecond
timestamp" of the shared time manager (its source file is not in `src/`; only
its field `elapsed_us_wrapped` and its operations are used by `sync.rs`). -/
structure WrappedTime where
  elapsed_us_wrapped : Fin WT_MOD
  deriving DecidableEq, Repr

/-- Build a `WrappedTime` from a microsecond count, wrapping modulo 2^32. -/
def wtOfMicros (n : Nat) : WrappedTime :=
  ⟨⟨n % WT_MOD, Nat.mod_lt _ (by norm_num)⟩⟩

/-- `WrappedTime::default()`: time zero. -/
def WrappedTime.default : WrappedTime := wtOfMicros 0

/-- `WrappedTime::from_duration`: truncate a duration to whole microseconds,
wrapping modulo 2^32. -/
def WrappedTime.from_duration (d : Duration) : WrappedTime :=
  wtOfMicros d.as_micros

/-- Modelled from the spec: "addition ... of signed durations" on the wrapping
clock — `WrappedTime += Duration`, wrapping modulo 2^32 microseconds. -/
def wtAddDur (t : WrappedTime) (d : Duration) : WrappedTime :=
  wtOfMicros (t.elapsed_us_wrapped.val + d.as_micros)

/-- Modelled from the spec: addition of two wrapping clock values
(`WrappedTime + WrappedTime`, used by the smoothing blend). -/
def wtAddW (a b : WrappedTime) : WrappedTime :=
  wtOfMicros (a.elapsed_us_wrapped.val + b.elapsed_us_wrapped.val)

/-- Map an integer into `Fin WT_MOD` (the `u32` wrap of the clock). -/
def intToU32 (z : Int) : Fin WT_MOD :=
  ⟨(z % 4294967296).toNat, by
    have h1 : 0 ≤ z % 4294967296 := Int.emod_nonneg z (by norm_num)
    have h2 : z % 4294967296 < 4294967296 := Int.emod_lt_of_pos z (by norm_num)
    show (z % 4294967296).toNat < 4294967296
    omega⟩

/-- Modelled from the spec: "subtraction of signed durations" on the wrapping
clock — `WrappedTime - chrono::Duration`, wrapping modulo 2^32 microseconds. -/
def wtSubDur (t : WrappedTime) (d : Duration) : WrappedTime :=
  ⟨intToU32 ((t.elapsed_us_wrapped.val : Int) - (d.as_micros : Int))⟩

/-- Modelled from the spec: signed, shortest-distance difference of two
wrapping clock values, in microseconds (the `WrappedTime - WrappedTime`
subtraction producing a signed `chrono::Duration`; the spec mandates
"signed/shortest-distance comparison" for wrap-sensitive arithmetic). -/
def wtSub (a b : WrappedTime) : Int :=
  ((a.elapsed_us_wrapped.val : Int) - (b.elapsed_us_wrapped.val : Int)
      + 2147483648) % 4294967296 - 2147483648

/-- Modelled from the spec: wrap-aware signed difference of two 16-bit ticks
(`Tick - Tick -> i16` of the shared tick manager). -/
def tickSubSigned (a b : Tick) : Int :=
  ((a.val : Int) - (b.val : Int) + 32768) % 65536 - 32768

/-- Map an integer onto the 16-bit tick circle. -/
def intToTick (z : Int) : Tick :=
  ⟨(z % 65536).toNat, by
    have h1 : 0 ≤ z % 65536 := Int.emod_nonneg z (by norm_num)
    have h2 : z % 65536 < 65536 := Int.emod_lt_of_pos z (by norm_num)
    omega⟩

/-- Modelled from the spec: adding a signed tick delta to a 16-bit tick
(`Tick + i16`, wrapping modulo 2^16). -/
def tickAddSigned (t : Tick) (d : Int) : Tick :=
  intToTick ((t.val : Int) + d)

/-- `Duration::mul_f32`, embedded as exact rational scaling truncated to whole
nanoseconds. -/
def durMulQ (d : Duration) (q : ℚ) : Duration :=
  (⌊(d : ℚ) * q⌋).toNat

/-- Modelled from the spec: "scalar scaling" of the wrapping clock value
(`WrappedTime * f32`), embedded as exact rational scaling truncated to whole
microseconds and wrapped into the `u32` range. -/
def wtMulQ (t : WrappedTime) (q : ℚ) : WrappedTime :=
  wtOfMicros (⌊(t.elapsed_us_wrapped.val : ℚ) * q⌋.toNat)

/-- `SyncConfig` (sync.rs lines 27-50). -/
structure SyncConfig where
  jitter_multiple_margin : Nat
  tick_margin : Nat
  handshake_pings : Nat
  stats_buffer_duration : Duration
  error_margin : ℚ
  speedup_factor : ℚ
  current_server_time_smoothing : ℚ
  deriving DecidableEq, Repr

/-- `SyncConfig::default()` (sync.rs lines 52-64). -/
def SyncConfig.default : SyncConfig where
  jitter_multiple_margin := 3
  tick_margin := 1
  handshake_pings := 7
  stats_buffer_duration := 2000000000
  error_margin := 1
  speedup_factor := 103 / 100
  current_server_time_smoothing := 1 / 10

/-- The tick-manager configuration (collaborator): holds the tick duration. -/
structure TickManagerConfig where
  tick_duration : Duration
  deriving DecidableEq, Repr

/-- Modelled from the spec: the "tick source (collaborator): holds tick
duration and current tick, accepts a one-shot rebase" (the shared tick
manager's source file is not in `src/`). -/
structure TickManager where
  config : TickManagerConfig
  tick : Tick
  deriving DecidableEq, Repr

/-- `TickManager::current_tick`. -/
def TickManager.current_tick (tm : TickManager) : Tick := tm.tick

/-- `TickManager::set_tick_to`: the only rebase entry point. -/
def TickManager.set_tick_to (tm : TickManager) (t : Tick) : TickManager :=
  { tm with tick := t }

/-- Modelled from the spec: the "wall-clock source (collaborator): reports
per-frame elapsed delta and accepts a settable playback-speed multiplier"
(`TimeManager`; its source file is not in `src/`).  `wrapped_time` is the wall
clock's own current time, `sync_relative_speed` the settable multiplier. -/
structure TimeManager where
  wrapped_time : WrappedTime
  delta : Duration
  overstep : Duration
  sync_relative_speed : ℚ
  deriving DecidableEq, Repr

/-- Modelled from the spec: the "RTT/jitter source — `rtt()`, `jitter()`,
handshake sample count" (`PingManager`; its source file is not in `src/`). -/
structure PingManager where
  rtt : Duration
  jitter : Duration
  sync_stats_len : Nat
  deriving DecidableEq, Repr

/-- `InterpolationDelay` (interpolation/plugin.rs lines 22-32). -/
structure InterpolationDelay where
  min_delay : Duration
  send_interval_ratio : ℚ
  deriving DecidableEq, Repr

/-- `InterpolationDelay::to_duration` (interpolation/plugin.rs lines 55-58):
`max(server_send_interval.mul_f32(send_interval_ratio), min_delay)`. -/
def InterpolationDelay.to_duration (d : InterpolationDelay)
    (server_send_interval : Duration) : Duration :=
  max (durMulQ server_send_interval d.send_interval_ratio) d.min_delay

/-- `SyncManager` (sync.rs lines 88-107). -/
structure SyncManager where
  config : SyncConfig
  synced : Bool
  current_server_time : WrappedTime
  interpolation_time : WrappedTime
  interpolation_speed_ratio : ℚ
  latest_received_server_tick : Tick
  estimated_interpolation_tick : Tick
  duration_since_latest_received_server_tick : Duration
  new_latest_received_server_tick : Bool
  deriving DecidableEq, Repr

/-- `SyncManager::new` (sync.rs lines 111-125). -/
def SyncManager.new (config : SyncConfig) : SyncManager where
  config := config
  synced := false
  current_server_time := WrappedTime.default
  interpolation_time := WrappedTime.default
  interpolation_speed_ratio := 1
  latest_received_server_tick := 0
  estimated_interpolation_tick := 0
  duration_since_latest_received_server_tick := 0
  new_latest_received_server_tick := false

/-- `SyncManager::current_prediction_time` (sync.rs lines 167-185): the
current client tick converted to a time, with the client tick bumped by
`u16::MAX` when the raw delta to the latest received server tick shows it
wrapped around. -/
def SyncManager.current_prediction_time (sm : SyncManager) (tm : TickManager)
    (time : TimeManager) : WrappedTime :=
  let client_tick_raw : Int := (tm.current_tick.val : Int)
  let client_tick_raw : Int :=
    if (sm.latest_received_server_tick.val : Int) - client_tick_raw
        > 32767 - 1000 then
      client_tick_raw + 65535
    else
      client_tick_raw
  WrappedTime.from_duration
    (tm.config.tick_duration * client_tick_raw.toNat + time.overstep)

/-- The fresh server-time estimate of `update_current_server_time`
(sync.rs lines 198-202):
`latest_received_server_tick * tick_duration + duration_since + rtt / 2`. -/
def newCurrentServerTimeEstimate (sm : SyncManager) (tick_duration : Duration)
    (rtt : Duration) : WrappedTime :=
  WrappedTime.from_duration
    (sm.latest_received_server_tick.val * tick_duration
      + sm.duration_since_latest_received_server_tick + rtt / 2)

/-- `SyncManager::update_current_server_time` (sync.rs lines 197-214). -/
def SyncManager.update_current_server_time (sm : SyncManager)
    (tick_duration : Duration) (rtt : Duration) : SyncManager :=
  let newEst := newCurrentServerTimeEstimate sm tick_duration rtt
  if sm.current_server_time = WrappedTime.default then
    { sm with current_server_time := newEst }
  else
    let blended :=
      wtAddW (wtMulQ sm.current_server_time sm.config.current_server_time_smoothing)
        (wtMulQ newEst (1 - sm.config.current_server_time_smoothing))
    { sm with current_server_time := blended }

/-- `SyncManager::predicted_server_receive_time` (sync.rs lines 217-219). -/
def SyncManager.predicted_server_receive_time (sm : SyncManager)
    (rtt : Duration) : WrappedTime :=
  wtAddDur sm.current_server_time (rtt / 2)

/-- `SyncManager::client_ahead_minimum` (sync.rs lines 222-225):
`jitter_multiple_margin * jitter + tick_margin * tick_duration`. -/
def SyncManager.client_ahead_minimum (sm : SyncManager)
    (tick_duration jitter : Duration) : Duration :=
  sm.config.jitter_multiple_margin * jitter + sm.config.tick_margin * tick_duration

/-- `SyncManager::interpolation_objective` (sync.rs lines 231-252). -/
def SyncManager.interpolation_objective (sm : SyncManager)
    (interpolation_delay : InterpolationDelay) (server_send_interval : Duration)
    (tm : TickManager) : WrappedTime :=
  let objective_time := WrappedTime.from_duration
    (sm.latest_received_server_tick.val * tm.config.tick_duration
      + sm.duration_since_latest_received_server_tick)
  wtSubDur objective_time (interpolation_delay.to_duration server_send_interval)

/-- `SyncManager::interpolation_tick` (sync.rs lines 254-259):
`(interpolation_time.elapsed_us_wrapped / tick_duration.as_micros()) as u16`. -/
def SyncManager.interpolation_tick (sm : SyncManager) (tm : TickManager) : Tick :=
  intToTick
    ((sm.interpolation_time.elapsed_us_wrapped.val
        / tm.config.tick_duration.as_micros : Nat) : Int)

/-- The interpolation speed chosen by `update_interpolation_time`
(sync.rs lines 273-285): compare `objective - interpolation_time` against a
fixed 10 ms tolerance (the clock difference is exact in microseconds, so the
comparison is carried out in microseconds). -/
def interpolationSpeedCalc (sm : SyncManager)
    (interpolation_delay : InterpolationDelay) (server_update_rate : Duration)
    (tm : TickManager) : ℚ :=
  let objective_time :=
    sm.interpolation_objective interpolation_delay server_update_rate tm
  let delta : Int := wtSub objective_time sm.interpolation_time
  if delta > 10000 then
    sm.config.speedup_factor
  else if delta < -10000 then
    1 / sm.config.speedup_factor
  else
    1

/-- `SyncManager::update_interpolation_time` (sync.rs lines 263-286). -/
def SyncManager.update_interpolation_time (sm : SyncManager)
    (interpolation_delay : InterpolationDelay) (server_update_rate : Duration)
    (tm : TickManager) : SyncManager :=
  { sm with interpolation_speed_ratio :=
      interpolationSpeedCalc sm interpolation_delay server_update_rate tm }

/-- The signed error of `update_prediction_time` (sync.rs lines 306-312), in
nanoseconds: `(current_prediction_time - predicted_server_receive_time)
- client_ahead_minimum` (the clock difference is whole microseconds, scaled
to nanoseconds to subtract the nanosecond-precision margin exactly as
`chrono` does). -/
def predictionErrorNs (sm : SyncManager) (time : TimeManager)
    (tm : TickManager) (ping : PingManager) : Int :=
  let current_prediction_time := sm.current_prediction_time tm time
  let predicted := sm.predicted_server_receive_time ping.rtt
  let client_ahead_delta : Int := wtSub current_prediction_time predicted
  client_ahead_delta * 1000
    - (sm.client_ahead_minimum tm.config.tick_duration ping.jitter : Int)

/-- The error margin of `update_prediction_time` (sync.rs lines 313-319), in
nanoseconds: `tick_duration.mul_f32(error_margin)`. -/
def errorMarginNs (sm : SyncManager) (tm : TickManager) : Int :=
  (durMulQ tm.config.tick_duration sm.config.error_margin : Int)

/-- `SyncManager::update_prediction_time` (sync.rs lines 291-356): writes the
wall clock's `sync_relative_speed` and nothing else (`tick_manager` and
`ping_manager` are taken by shared reference in the source and cannot be
mutated; `self` is mutable but no field of it is assigned). -/
def SyncManager.update_prediction_time (sm : SyncManager) (time : TimeManager)
    (tm : TickManager) (ping : PingManager) : SyncManager × TimeManager :=
  let error := predictionErrorNs sm time tm ping
  let error_margin_time := errorMarginNs sm tm
  let speed : ℚ :=
    if error > error_margin_time then
      1 / sm.config.speedup_factor
    else if error < -error_margin_time then
      sm.config.speedup_factor
    else
      1
  (sm, { time with sync_relative_speed := speed })

/-- `SyncManager::finalize` (sync.rs lines 361-395).  The `time_manager` is
taken by mutable reference in the source but never written; it is returned
unchanged. -/
def SyncManager.finalize (sm : SyncManager) (time : TimeManager)
    (tm : TickManager) (ping : PingManager) :
    SyncManager × TimeManager × TickManager :=
  let tick_duration := tm.config.tick_duration
  let rtt := ping.rtt
  let jitter := ping.jitter
  let sm := sm.update_current_server_time tick_duration rtt
  let client_ideal_time :=
    wtAddDur (sm.predicted_server_receive_time rtt)
      (sm.client_ahead_minimum tick_duration jitter)
  let client_ideal_tick : Tick :=
    intToTick
      (((client_ideal_time.elapsed_us_wrapped.val
            / tick_duration.as_micros) % 65536 + 1 : Nat) : Int)
  (sm, time, tm.set_tick_to client_ideal_tick)

/-- The per-frame advance at the top of `SyncManager::update`
(sync.rs lines 138-140). -/
def syncAdvance (sm : SyncManager) (time : TimeManager) : SyncManager :=
  { sm with
    duration_since_latest_received_server_tick :=
      sm.duration_since_latest_received_server_tick + time.delta
    current_server_time := wtAddDur sm.current_server_time time.delta
    interpolation_time :=
      wtAddDur sm.interpolation_time
        (durMulQ time.delta sm.interpolation_speed_ratio) }

/-- `SyncManager::update` (sync.rs lines 130-157): advance the times, flip
`synced` (calling `finalize` and seeding `interpolation_time`) once enough
handshake pings have been recorded, then run `update_interpolation_time`
whenever synced. -/
def SyncManager.update (sm : SyncManager) (time : TimeManager)
    (tm : TickManager) (ping : PingManager)
    (interpolation_delay : InterpolationDelay) (server_send_interval : Duration) :
    SyncManager × TimeManager × TickManager :=
  let s := syncAdvance sm time
  let r :=
    if s.synced = false ∧ s.config.handshake_pings ≤ ping.sync_stats_len then
      let s := { s with synced := true }
      let fr := s.finalize time tm ping
      let seeded :=
        fr.1.interpolation_objective interpolation_delay server_send_interval
          fr.2.2
      let s := { fr.1 with interpolation_time := seeded }
      (s, fr.2.1, fr.2.2)
    else
      (s, time, tm)
  if r.1.synced = true then
    (r.1.update_interpolation_time interpolation_delay server_send_interval
        r.2.2,
      r.2.1, r.2.2)
  else
    r

/-- `SyncManager::is_synced` (sync.rs lines 159-161). -/
def SyncManager.is_synced (sm : SyncManager) : Bool := sm.synced

/-- Modelled from the spec: the per-tick input ring buffer — an "ordered
window of `Option<Action>` keyed by tick, with a known start_tick (oldest
retained)" (its source file `inputs/native/input_buffer.rs` is not in
`src/`; `input/native.rs` reads and writes its `start_tick` field). -/
structure InputBuffer (A : Type) where
  start_tick : Option Tick
  buffer : List (Option A)
  deriving DecidableEq, Repr

/-- Modelled from the spec: `InputBuffer::get(tick)` — the action stored for
`tick`, indexing the window relative to `start_tick`; "InputBuffer never
exposes a tick earlier than start_tick". -/
def InputBuffer.get {A : Type} (b : InputBuffer A) (tick : Tick) : Option A :=
  match b.start_tick with
  | none => none
  | some st =>
    let d := tickSubSigned tick st
    if 0 ≤ d then (b.buffer.get? d.toNat).join else none

/-- `TickEvent::TickSnap` (the only variant of the tick event consumed by
`receive_tick_events`). -/
structure TickSnapEvent where
  old_tick : Tick
  new_tick : Tick
  deriving DecidableEq, Repr

/-- `receive_tick_events` (input/native.rs lines 250-266): on a tick-snap
event, shift `start_tick` by `new_tick - old_tick`; the stored entries are
untouched. -/
def receive_tick_events {A : Type} (ev : TickSnapEvent) (b : InputBuffer A) :
    InputBuffer A :=
  match b.start_tick with
  | none => b
  | some start_tick =>
    let shifted := tickAddSigned start_tick (tickSubSigned ev.new_tick ev.old_tick)
    { b with start_tick := some shifted }

/-- The tick count derived in `prepare_input_message`
(input/native.rs lines 293-296):
`(input_send_interval.as_nanos() / tick_duration.as_nanos()) + 1`. -/
def prepareInputMessageNumTicks (input_send_interval tick_duration : Duration) :
    Nat :=
  input_send_interval / tick_duration + 1

/-- The message length computed by `prepare_input_message`
(input/native.rs lines 297-299): `packet_redundancy * num_tick`. -/
def prepareInputMessageLen (input_send_interval tick_duration : Duration)
    (packet_redundancy : Nat) : Nat :=
  packet_redundancy * prepareInputMessageNumTicks input_send_interval tick_duration

/-- The message-length formula stated by the spec's redundancy policy:
`message_length = channel_send_interval_in_ticks * (1 + packet_redundancy)`
(to be compared with `prepareInputMessageLen`). -/
def specMessageLen (send_interval_in_ticks packet_redundancy : Nat) : Nat :=
  send_interval_in_ticks * (1 + packet_redundancy)

/-- Ceiling division, the `div_ceil` named by the spec and by the comment in
`finalize` (to be compared with the `floor + 1` the code computes). -/
def specCeilDiv (a b : Nat) : Nat := (a + b - 1) / b

/-- States of the `SyncManager` reachable from `new` by the sync operations. -/
inductive Reachable : SyncManager → Prop
  | new (config : SyncConfig) : Reachable (SyncManager.new config)
  | update (s : SyncManager) (time : TimeManager) (tm : TickManager)
      (ping : PingManager) (delay : InterpolationDelay) (ssi : Duration) :
      Reachable s → Reachable (s.update time tm ping delay ssi).1
  | update_interpolation_time (s : SyncManager) (delay : InterpolationDelay)
      (rate : Duration) (tm : TickManager) :
      Reachable s → Reachable (s.update_interpolation_time delay rate tm)
  | update_prediction_time (s : SyncManager) (time : TimeManager)
      (tm : TickManager) (ping : PingManager) :
      Reachable s → Reachable (s.update_prediction_time time tm ping).1
  | finalize (s : SyncManager) (time : TimeManager) (tm : TickManager)
      (ping : PingManager) :
      Reachable s → Reachable (s.finalize time tm ping).1

section Lemmas

/-- Adding a zero duration to the wrapping clock is the identity. -/
lemma wtAddDur_zero (t : WrappedTime) : wtAddDur t 0 = t := by
  cases t with
  | mk f =>
    cases f with
    | mk v h =>
      simp [wtAddDur, wtOfMicros, Duration.as_micros, Nat.mod_eq_of_lt h]

/-- Scaling a zero duration gives zero. -/
lemma durMulQ_zero (q : ℚ) : durMulQ 0 q = 0 := by
  simp [durMulQ]

/-- A zero-delta frame advance leaves the manager unchanged. -/
lemma syncAdvance_zero (sm : SyncManager) (time : TimeManager)
    (h : time.delta = 0) : syncAdvance sm time = sm := by
  cases sm
  simp [syncAdvance, h, wtAddDur_zero, durMulQ_zero]

lemma syncAdvance_synced (sm : SyncManager) (time : TimeManager) :
    (syncAdvance sm time).synced = sm.synced := rfl

lemma syncAdvance_config (sm : SyncManager) (time : TimeManager) :
    (syncAdvance sm time).config = sm.config := rfl

lemma syncAdvance_speed (sm : SyncManager) (time : TimeManager) :
    (syncAdvance sm time).interpolation_speed_ratio
      = sm.interpolation_speed_ratio := rfl

lemma update_interpolation_time_synced (sm : SyncManager)
    (delay : InterpolationDelay) (rate : Duration) (tm : TickManager) :
    (sm.update_interpolation_time delay rate tm).synced = sm.synced := rfl

lemma update_interpolation_time_config (sm : SyncManager)
    (delay : InterpolationDelay) (rate : Duration) (tm : TickManager) :
    (sm.update_interpolation_time delay rate tm).config = sm.config := rfl

lemma update_interpolation_time_cst (sm : SyncManager)
    (delay : InterpolationDelay) (rate : Duration) (tm : TickManager) :
    (sm.update_interpolation_time delay rate tm).current_server_time
      = sm.current_server_time := rfl

lemma update_current_server_time_synced (sm : SyncManager)
    (td rtt : Duration) :
    (sm.update_current_server_time td rtt).synced = sm.synced := by
  rw [SyncManager.update_current_server_time]
  split <;> rfl

lemma update_current_server_time_config (sm : SyncManager)
    (td rtt : Duration) :
    (sm.update_current_server_time td rtt).config = sm.config := by
  rw [SyncManager.update_current_server_time]
  split <;> rfl

lemma update_current_server_time_speed (sm : SyncManager)
    (td rtt : Duration) :
    (sm.update_current_server_time td rtt).interpolation_speed_ratio
      = sm.interpolation_speed_ratio := by
  rw [SyncManager.update_current_server_time]
  split <;> rfl

lemma finalize_fst_synced (sm : SyncManager) (time : TimeManager)
    (tm : TickManager) (ping : PingManager) :
    (sm.finalize time tm ping).1.synced = sm.synced :=
  update_current_server_time_synced sm _ _

lemma finalize_fst_config (sm : SyncManager) (time : TimeManager)
    (tm : TickManager) (ping : PingManager) :
    (sm.finalize time tm ping).1.config = sm.config :=
  update_current_server_time_config sm _ _

lemma finalize_fst_speed (sm : SyncManager) (time : TimeManager)
    (tm : TickManager) (ping : PingManager) :
    (sm.finalize time tm ping).1.interpolation_speed_ratio
      = sm.interpolation_speed_ratio :=
  update_current_server_time_speed sm _ _

/-- The chosen interpolation speed is one of the three legal values. -/
lemma interpolationSpeedCalc_mem (sm : SyncManager)
    (delay : InterpolationDelay) (rate : Duration) (tm : TickManager) :
    interpolationSpeedCalc sm delay rate tm = 1 / sm.config.speedup_factor
      ∨ interpolationSpeedCalc sm delay rate tm = 1
      ∨ interpolationSpeedCalc sm delay rate tm = sm.config.speedup_factor := by
  rw [interpolationSpeedCalc]
  split
  · exact Or.inr (Or.inr rfl)
  · split
    · exact Or.inl rfl
    · exact Or.inr (Or.inl rfl)

/-- `update` on an unsynced manager that has not yet collected enough pongs
only advances the times. -/
lemma update_unsynced_noflip (sm : SyncManager) (time : TimeManager)
    (tm : TickManager) (ping : PingManager) (delay : InterpolationDelay)
    (ssi : Duration) (h1 : sm.synced = false)
    (h2 : ping.sync_stats_len < sm.config.handshake_pings) :
    sm.update time tm ping delay ssi = (syncAdvance sm time, time, tm) := by
  have hA : ¬((syncAdvance sm time).synced = false
      ∧ (syncAdvance sm time).config.handshake_pings ≤ ping.sync_stats_len) := by
    rw [syncAdvance_synced, syncAdvance_config, h1]
    intro hc
    omega
  have hB : ¬((syncAdvance sm time, time, tm).1.synced = true) := by
    rw [syncAdvance_synced, h1]
    simp
  simp only [SyncManager.update]
  rw [if_neg hA, if_neg hB]

/-- `update` on a synced manager advances the times and reruns
`update_interpolation_time`. -/
lemma update_synced (sm : SyncManager) (time : TimeManager)
    (tm : TickManager) (ping : PingManager) (delay : InterpolationDelay)
    (ssi : Duration) (h1 : sm.synced = true) :
    sm.update time tm ping delay ssi
      = ((syncAdvance sm time).update_interpolation_time delay ssi tm,
          time, tm) := by
  have hA : ¬((syncAdvance sm time).synced = false
      ∧ (syncAdvance sm time).config.handshake_pings ≤ ping.sync_stats_len) := by
    rw [syncAdvance_synced, h1]
    simp
  have hB : (syncAdvance sm time, time, tm).1.synced = true := by
    rw [syncAdvance_synced, h1]
  simp only [SyncManager.update]
  rw [if_neg hA, if_pos hB]

/-- `update` on an unsynced manager that has collected enough pongs flips
`synced`, runs `finalize`, seeds the interpolation time from the
interpolation objective, and reruns `update_interpolation_time`. -/
lemma update_flip (sm : SyncManager) (time : TimeManager)
    (tm : TickManager) (ping : PingManager) (delay : InterpolationDelay)
    (ssi : Duration) (h1 : sm.synced = false)
    (h2 : sm.config.handshake_pings ≤ ping.sync_stats_len) :
    sm.update time tm ping delay ssi
      = (let s1 : SyncManager := { syncAdvance sm time with synced := true }
         let fr := s1.finalize time tm ping
         let seeded := fr.1.interpolation_objective delay ssi fr.2.2
         let s2 : SyncManager := { fr.1 with interpolation_time := seeded }
         (s2.update_interpolation_time delay ssi fr.2.2, fr.2.1, fr.2.2)) := by
  have hA : (syncAdvance sm time).synced = false
      ∧ (syncAdvance sm time).config.handshake_pings ≤ ping.sync_stats_len := by
    rw [syncAdvance_synced, syncAdvance_config, h1]
    exact ⟨rfl, h2⟩
  simp only [SyncManager.update]
  rw [if_pos hA]
  have hB : (({ syncAdvance sm time with synced := true } : SyncManager).finalize
      time tm ping).1.synced = true := by
    rw [finalize_fst_synced]
  rw [if_pos]
  exact hB

/-- The value of a tick shifted by a signed delta, as an integer. -/
lemma tickAddSigned_val (a : Tick) (d : Int) :
    ((tickAddSigned a d).val : Int) = ((a.val : Int) + d) % 65536 := by
  simp only [tickAddSigned, intToTick]
  rw [Int.toNat_of_nonneg (Int.emod_nonneg _ (by norm_num))]

/-- The wrap-aware signed tick difference is invariant under shifting both
ticks by the same signed delta. -/
lemma tickSubSigned_shift (a b : Tick) (d : Int) :
    tickSubSigned (tickAddSigned a d) (tickAddSigned b d) = tickSubSigned a b := by
  rw [tickSubSigned, tickSubSigned, tickAddSigned_val, tickAddSigned_val]
  omega

end Lemmas

/-- C1: evaluation of `current_prediction_time` at the failing input that the
function's own doc comment describes (client tick 1, latest received server
tick 65535, tick duration 16 ms, overstep 0).  The wraparound branch fires
(65535 - 1 exceeds the threshold i16::MAX - 1000), but the code adds
`u16::MAX` = 65535 and produces the time of tick 65536, whereas the claim,
the spec and the code's own comment require adding 2^16 = 65536 and
producing the time of tick 65537; the two times differ. -/
theorem current_prediction_time_wrap_addend_eval :
    ({ SyncManager.new SyncConfig.default with
        latest_received_server_tick := 65535 } : SyncManager).current_prediction_time
        ⟨⟨16000000⟩, 1⟩ ⟨WrappedTime.default, 0, 0, 1⟩
      = WrappedTime.from_duration (16000000 * 65536)
    ∧ WrappedTime.from_duration (16000000 * 65536)
      ≠ WrappedTime.from_duration (16000000 * 65537) := by
  constructor
  · rfl
  · decide

/-- C2 (counterexample): with a channel send interval of exactly 3 ticks
(48 ms at a 16 ms tick) and `packet_redundancy` = 2, `prepare_input_message`
computes a message length of `2 * (48/16 + 1)` = 8 ticks, not the
`3 * (1 + 2)` = 9 ticks stated by the spec's redundancy policy. -/
theorem prepare_input_message_len_not_spec_formula :
    prepareInputMessageLen 48000000 16000000 2 ≠ specMessageLen 3 2 := by
  decide

/-- C2 (amended): the message length computed by `prepare_input_message` is
`packet_redundancy * (channel_send_interval_in_ticks + 1)`; in particular
with `packet_redundancy` = 2 and a send interval of 3 ticks the message
length is 8 ticks. -/
theorem prepare_input_message_len_formula (k td red : Nat) (h : 0 < td) :
    prepareInputMessageLen (k * td) td red = red * (k + 1)
    ∧ prepareInputMessageLen 48000000 16000000 2 = 8 := by
  constructor
  · rw [prepareInputMessageLen, prepareInputMessageNumTicks,
      Nat.mul_div_cancel _ h]
  · decide

/-- C2 (witness): the amended formula instantiated at a 16 ms tick, a
48 ms (= 3 tick) send interval and redundancy 2 gives 2 * (3 + 1) = 8. -/
theorem prepare_input_message_len_formula_witness :
    prepareInputMessageLen (3 * 16000000) 16000000 2 = 2 * (3 + 1) :=
  (prepare_input_message_len_formula 3 16000000 2 (by norm_num)).1

/-- C3: evaluation of `finalize` at a failing input where
`predicted_server_receive_time + client_ahead_minimum` is an exact multiple
of the tick duration.  With tick duration 16 ms, rtt 32 ms, jitter 0,
latest server tick 0 and no elapsed time, the ideal time is 48 ms = 3 ticks
exactly; `ceil(48/16)` = 3, but the code computes `floor(48/16) + 1` = 4
(its own comment says "we add 1 to get the div_ceil").  The third conjunct
checks the claim's correct part: `client_ahead_minimum` is 46 ms at
jitter 10 ms, jitter margin 3, tick margin 1, tick duration 16 ms. -/
theorem finalize_floor_plus_one_eval :
    ((SyncManager.new SyncConfig.default).finalize
        ⟨WrappedTime.default, 0, 0, 1⟩ ⟨⟨16000000⟩, 0⟩ ⟨32000000, 0, 7⟩).2.2.tick
      = (4 : Tick)
    ∧ specCeilDiv 48000 16000 = 3
    ∧ (SyncManager.new SyncConfig.default).client_ahead_minimum
        16000000 10000000 = 46000000 := by
  refine ⟨by decide, by decide, by decide⟩

/-- C10: `update_prediction_time` writes only the wall clock's
relative-speed multiplier: the `SyncManager` it returns is the input
unchanged (every field, including `synced`, `current_server_time`,
`interpolation_time`, `interpolation_speed_ratio`,
`latest_received_server_tick`, `duration_since_latest_received_server_tick`
and `estimated_interpolation_tick`), and of the wall clock only
`sync_relative_speed` may change; the tick manager and ping manager are
taken by shared reference and cannot be mutated. -/
theorem update_prediction_time_frame_effect (sm : SyncManager)
    (time : TimeManager) (tm : TickManager) (ping : PingManager) :
    (sm.update_prediction_time time tm ping).1 = sm
    ∧ (sm.update_prediction_time time tm ping).2.wrapped_time
        = time.wrapped_time
    ∧ (sm.update_prediction_time time tm ping).2.delta = time.delta
    ∧ (sm.update_prediction_time time tm ping).2.overstep = time.overstep :=
  ⟨rfl, rfl, rfl, rfl⟩

/-- C6: with `error = (current_prediction_time - predicted_server_receive_time)
- client_ahead_minimum`, `update_prediction_time` writes `1/speedup_factor`
to the wall clock's speed multiplier when the error exceeds
`tick_duration * error_margin`, `speedup_factor` when it is below the
negated margin, and `1` otherwise; and it never mutates the wall clock's
time. -/
theorem update_prediction_time_speed_cases (sm : SyncManager)
    (time : TimeManager) (tm : TickManager) (ping : PingManager) :
    (predictionErrorNs sm time tm ping > errorMarginNs sm tm →
      (sm.update_prediction_time time tm ping).2.sync_relative_speed
        = 1 / sm.config.speedup_factor)
    ∧ (predictionErrorNs sm time tm ping < -errorMarginNs sm tm →
      (sm.update_prediction_time time tm ping).2.sync_relative_speed
        = sm.config.speedup_factor)
    ∧ (-errorMarginNs sm tm ≤ predictionErrorNs sm time tm ping →
       predictionErrorNs sm time tm ping ≤ errorMarginNs sm tm →
      (sm.update_prediction_time time tm ping).2.sync_relative_speed = 1)
    ∧ (sm.update_prediction_time time tm ping).2.wrapped_time
        = time.wrapped_time := by
  refine ⟨?_, ?_, ?_, rfl⟩
  · intro h
    simp [SyncManager.update_prediction_time, h]
  · intro h
    have hm : 0 ≤ errorMarginNs sm tm := Int.natCast_nonneg _
    have h2 : ¬ predictionErrorNs sm time tm ping > errorMarginNs sm tm := by
      omega
    simp [SyncManager.update_prediction_time, h, h2]
  · intro h1 h2
    have h3 : ¬ predictionErrorNs sm time tm ping > errorMarginNs sm tm := by
      omega
    have h4 : ¬ predictionErrorNs sm time tm ping < -errorMarginNs sm tm := by
      omega
    simp [SyncManager.update_prediction_time, h3, h4]

/-- C6 (witness): a fresh manager at client tick 100 (16 ms ticks, zero rtt
and jitter) is far ahead of the estimated server time, so the multiplier is
set to `1/speedup_factor`. -/
theorem update_prediction_time_speed_cases_witness :
    ((SyncManager.new SyncConfig.default).update_prediction_time
        ⟨WrappedTime.default, 0, 0, 1⟩ ⟨⟨16000000⟩, 100⟩
        ⟨0, 0, 7⟩).2.sync_relative_speed
      = 1 / SyncConfig.default.speedup_factor :=
  (update_prediction_time_speed_cases _ _ _ _).1 (by
    norm_num [predictionErrorNs, errorMarginNs, durMulQ,
      SyncManager.current_prediction_time, SyncManager.predicted_server_receive_time,
      SyncManager.client_ahead_minimum, SyncManager.new, SyncConfig.default,
      TickManager.current_tick, WrappedTime.from_duration, WrappedTime.default,
      Duration.as_micros, wtOfMicros, wtAddDur, wtSub]
    decide)

/-- The zero-pong frame advance of a fresh manager evaluated at a 16 ms
frame delta. -/
lemma advance_first :
    syncAdvance (SyncManager.new SyncConfig.default)
        ⟨WrappedTime.default, 16000000, 0, 1⟩
      = { SyncManager.new SyncConfig.default with
          current_server_time := wtOfMicros 16000
          interpolation_time := wtOfMicros 16000
          duration_since_latest_received_server_tick := 16000000 } := by
  norm_num [syncAdvance, SyncManager.new, SyncConfig.default, WrappedTime.default,
    Duration.as_micros, wtOfMicros, wtAddDur, durMulQ]
  decide

/-- The state reached from a fresh manager by one `update` with a 16 ms
frame delta before any pong has been recorded: `current_server_time` has
drifted to 16 ms although no estimate has ever been stored. -/
lemma update_before_first_sample :
    ((SyncManager.new SyncConfig.default).update
        ⟨WrappedTime.default, 16000000, 0, 1⟩ ⟨⟨16000000⟩, 0⟩
        ⟨100000000, 10000000, 0⟩ ⟨0, 2⟩ 0).1
      = { SyncManager.new SyncConfig.default with
          current_server_time := wtOfMicros 16000
          interpolation_time := wtOfMicros 16000
          duration_since_latest_received_server_tick := 16000000 } := by
  rw [update_unsynced_noflip _ _ _ _ _ _ rfl (by norm_num [SyncManager.new,
    SyncConfig.default])]
  exact advance_first

/-- C7 (counterexample): a call of `update_current_server_time` made when no
estimate has been recorded yet does NOT always store the new estimate
unsmoothed.  Starting from a fresh manager, one `update` with a 16 ms frame
delta (and no pongs, so the handshake does not complete) advances
`current_server_time` to 16 ms ≠ 0; the first-ever recorded sample is then
blended against that drifted value instead of being stored unsmoothed,
because the code's branch tests `current_server_time == default`, not
"no estimate recorded yet". -/
theorem update_current_server_time_first_sample_smoothed :
    (((SyncManager.new SyncConfig.default).update
          ⟨WrappedTime.default, 16000000, 0, 1⟩ ⟨⟨16000000⟩, 0⟩
          ⟨100000000, 10000000, 0⟩ ⟨0, 2⟩ 0).1.update_current_server_time
        16000000 100000000).current_server_time
      ≠ newCurrentServerTimeEstimate
          ((SyncManager.new SyncConfig.default).update
            ⟨WrappedTime.default, 16000000, 0, 1⟩ ⟨⟨16000000⟩, 0⟩
            ⟨100000000, 10000000, 0⟩ ⟨0, 2⟩ 0).1 16000000 100000000 := by
  rw [update_before_first_sample]
  norm_num [SyncManager.update_current_server_time, newCurrentServerTimeEstimate,
    SyncManager.new, SyncConfig.default, WrappedTime.from_duration,
    WrappedTime.default, Duration.as_micros, wtOfMicros, wtAddW, wtMulQ]
  decide

/-- C7 (amended): every call of `update_current_server_time` sets
`current_server_time` to `current * smoothing + new * (1 - smoothing)` with
`new = latest_received_server_tick * tick_duration + duration_since + rtt/2`,
except that a call made when the current estimate equals the default (zero)
time stores the new estimate unsmoothed. -/
theorem update_current_server_time_blend (sm : SyncManager)
    (td rtt : Duration) :
    (sm.current_server_time = WrappedTime.default →
      (sm.update_current_server_time td rtt).current_server_time
        = newCurrentServerTimeEstimate sm td rtt)
    ∧ (sm.current_server_time ≠ WrappedTime.default →
      (sm.update_current_server_time td rtt).current_server_time
        = wtAddW
            (wtMulQ sm.current_server_time
              sm.config.current_server_time_smoothing)
            (wtMulQ (newCurrentServerTimeEstimate sm td rtt)
              (1 - sm.config.current_server_time_smoothing))) := by
  constructor
  · intro h
    simp [SyncManager.update_current_server_time, h]
  · intro h
    simp [SyncManager.update_current_server_time, h]

/-- C7 (witness): on a fresh manager (estimate still at the default zero
time) the sample is stored unsmoothed. -/
theorem update_current_server_time_blend_witness :
    ((SyncManager.new SyncConfig.default).update_current_server_time
        16000000 100000000).current_server_time
      = newCurrentServerTimeEstimate (SyncManager.new SyncConfig.default)
          16000000 100000000 :=
  (update_current_server_time_blend _ _ _).1 rfl

/-- C9: on a tick-snap event from `old_tick` to `new_tick`, a buffer whose
`start_tick` is `t` gets `start_tick := t + (new_tick - old_tick)` (wrap-aware
signed tick arithmetic), the stored action sequence is unchanged, and every
tick-to-action association is preserved under the shift. -/
theorem tick_snap_shifts_start_tick {A : Type} (b : InputBuffer A) (t : Tick)
    (ev : TickSnapEvent) (h : b.start_tick = some t) :
    (receive_tick_events ev b).start_tick
      = some (tickAddSigned t (tickSubSigned ev.new_tick ev.old_tick))
    ∧ (receive_tick_events ev b).buffer = b.buffer
    ∧ ∀ q : Tick,
        (receive_tick_events ev b).get
            (tickAddSigned q (tickSubSigned ev.new_tick ev.old_tick))
          = b.get q := by
  cases b with
  | mk st buffer =>
    simp only [InputBuffer.start_tick] at h
    subst h
    refine ⟨rfl, rfl, ?_⟩
    intro q
    simp [receive_tick_events, InputBuffer.get, tickSubSigned_shift]

/-- C9 (witness): a rebase of +5 on a buffer with `start_tick` = 100 yields
`start_tick` = 105. -/
theorem tick_snap_shifts_start_tick_witness :
    (receive_tick_events ⟨0, 5⟩
        (⟨some 100, [some 7]⟩ : InputBuffer Nat)).start_tick = some 105 := by
  have h := (tick_snap_shifts_start_tick
    (⟨some 100, [some 7]⟩ : InputBuffer Nat) 100 ⟨0, 5⟩ rfl).1
  rw [h]
  decide

/-- C4: `synced` is monotone (never reverts) under every sync operation; an
`update` call ends synced exactly when the manager was already synced or the
accumulated handshake samples reach `config.handshake_pings`; no other
operation changes `synced`; and `update` rebases the tick manager (the
observable effect of `finalize`) exactly at the flip: when no flip happens
the tick manager is returned unchanged, and at the flip it is exactly the
tick manager produced by `finalize` on the flipped, advanced state. -/
theorem synced_transition_characterization (sm : SyncManager)
    (time : TimeManager) (tm : TickManager) (ping : PingManager)
    (delay : InterpolationDelay) (ssi : Duration) :
    ((sm.update time tm ping delay ssi).1.synced = true
      ↔ (sm.synced = true ∨ sm.config.handshake_pings ≤ ping.sync_stats_len))
    ∧ (sm.synced = true → (sm.update time tm ping delay ssi).1.synced = true)
    ∧ (sm.update_interpolation_time delay ssi tm).synced = sm.synced
    ∧ (sm.update_prediction_time time tm ping).1.synced = sm.synced
    ∧ (sm.update_current_server_time tm.config.tick_duration ping.rtt).synced
        = sm.synced
    ∧ (sm.finalize time tm ping).1.synced = sm.synced
    ∧ (¬(sm.synced = false ∧ sm.config.handshake_pings ≤ ping.sync_stats_len)
        → (sm.update time tm ping delay ssi).2.2 = tm)
    ∧ (sm.synced = false ∧ sm.config.handshake_pings ≤ ping.sync_stats_len
        → (sm.update time tm ping delay ssi).2.2
          = (({ syncAdvance sm time with synced := true } : SyncManager).finalize
              time tm ping).2.2) := by
  refine ⟨?_, ?_, update_interpolation_time_synced sm delay ssi tm,
    rfl, update_current_server_time_synced sm _ _,
    finalize_fst_synced sm time tm ping, ?_, ?_⟩
  · by_cases hs : sm.synced = true
    · rw [update_synced sm time tm ping delay ssi hs,
        update_interpolation_time_synced, syncAdvance_synced]
      exact ⟨fun _ => Or.inl hs, fun _ => hs⟩
    · have hs' : sm.synced = false := by
        cases h : sm.synced
        · rfl
        · exact absurd h hs
      by_cases hp : sm.config.handshake_pings ≤ ping.sync_stats_len
      · rw [update_flip sm time tm ping delay ssi hs' hp]
        simp only [update_interpolation_time_synced, finalize_fst_synced]
        exact ⟨fun _ => Or.inr hp, fun _ => by simp⟩
      · rw [update_unsynced_noflip sm time tm ping delay ssi hs'
          (by omega)]
        simp only [syncAdvance_synced, hs']
        constructor
        · intro h
          exact (Bool.false_ne_true h).elim
        · intro h
          rcases h with h | h
          · exact (Bool.false_ne_true h).elim
          · exact absurd h hp
  · intro hs
    rw [update_synced sm time tm ping delay ssi hs,
      update_interpolation_time_synced, syncAdvance_synced]
    exact hs
  · intro hni
    by_cases hs : sm.synced = true
    · rw [update_synced sm time tm ping delay ssi hs]
    · have hs' : sm.synced = false := by
        cases h : sm.synced
        · rfl
        · exact absurd h hs
      have hp : ¬ sm.config.handshake_pings ≤ ping.sync_stats_len := by
        intro hp
        exact hni ⟨hs', hp⟩
      rw [update_unsynced_noflip sm time tm ping delay ssi hs' (by omega)]
  · intro hfl
    rw [update_flip sm time tm ping delay ssi hfl.1 hfl.2]

/-- C4 (witness): with `handshake_pings` = 3, `synced` flips on the `update`
call made once 3 samples have accumulated, and not on an `update` call made
with only 2 samples. -/
theorem synced_transition_characterization_witness :
    ((SyncManager.new { SyncConfig.default with handshake_pings := 3 }).update
        ⟨WrappedTime.default, 0, 0, 1⟩ ⟨⟨16000000⟩, 0⟩ ⟨100000000, 10000000, 3⟩
        ⟨0, 2⟩ 0).1.synced = true
    ∧ ((SyncManager.new { SyncConfig.default with handshake_pings := 3 }).update
        ⟨WrappedTime.default, 0, 0, 1⟩ ⟨⟨16000000⟩, 0⟩ ⟨100000000, 10000000, 2⟩
        ⟨0, 2⟩ 0).1.synced = false := by
  constructor
  · exact (synced_transition_characterization _ _ _ _ _ _).1.mpr
      (Or.inr (by norm_num [SyncManager.new]))
  · have h := (synced_transition_characterization
      (SyncManager.new { SyncConfig.default with handshake_pings := 3 })
      ⟨WrappedTime.default, 0, 0, 1⟩ ⟨⟨16000000⟩, 0⟩ ⟨100000000, 10000000, 2⟩
      ⟨0, 2⟩ 0).1
    cases hval : ((SyncManager.new
        { SyncConfig.default with handshake_pings := 3 }).update
        ⟨WrappedTime.default, 0, 0, 1⟩ ⟨⟨16000000⟩, 0⟩ ⟨100000000, 10000000, 2⟩
        ⟨0, 2⟩ 0).1.synced
    · rfl
    · exfalso
      rcases h.mp hval with h' | h'
      · exact absurd h' (by simp [SyncManager.new])
      · revert h'
        norm_num [SyncManager.new]

/-- The state produced by `update_interpolation_time` always carries one of
the three legal speed values. -/
lemma speedOk_uit (x : SyncManager) (delay : InterpolationDelay)
    (rate : Duration) (tm : TickManager) :
    (x.update_interpolation_time delay rate tm).interpolation_speed_ratio
        = 1 / (x.update_interpolation_time delay rate tm).config.speedup_factor
    ∨ (x.update_interpolation_time delay rate tm).interpolation_speed_ratio = 1
    ∨ (x.update_interpolation_time delay rate tm).interpolation_speed_ratio
        = (x.update_interpolation_time delay rate tm).config.speedup_factor := by
  rcases interpolationSpeedCalc_mem x delay rate tm with h | h | h
  · exact Or.inl h
  · exact Or.inr (Or.inl h)
  · exact Or.inr (Or.inr h)

/-- C5: in every state reachable from `new` by any sequence of the sync
operations, `interpolation_speed_ratio` is one of the three values
`1/speedup_factor`, `1`, `speedup_factor`. -/
theorem interpolation_speed_three_values (s : SyncManager) (h : Reachable s) :
    s.interpolation_speed_ratio = 1 / s.config.speedup_factor
    ∨ s.interpolation_speed_ratio = 1
    ∨ s.interpolation_speed_ratio = s.config.speedup_factor := by
  induction h with
  | new config => exact Or.inr (Or.inl rfl)
  | update s time tm ping delay ssi hr ih =>
    by_cases hs : s.synced = true
    · rw [update_synced s time tm ping delay ssi hs]
      exact speedOk_uit _ _ _ _
    · have hs2 : s.synced = false := by
        cases hb : s.synced
        · rfl
        · exact absurd hb hs
      by_cases hp : s.config.handshake_pings ≤ ping.sync_stats_len
      · rw [update_flip s time tm ping delay ssi hs2 hp]
        exact speedOk_uit _ _ _ _
      · rw [update_unsynced_noflip s time tm ping delay ssi hs2 (by omega)]
        exact ih
  | update_interpolation_time s delay rate tm hr ih =>
    exact speedOk_uit _ _ _ _
  | update_prediction_time s time tm ping hr ih => exact ih
  | finalize s time tm ping hr ih =>
    rw [finalize_fst_speed, finalize_fst_config]
    exact ih

/-- C5 (witness): the freshly constructed manager is a reachable state and
its speed ratio (namely 1) is one of the three legal values. -/
theorem interpolation_speed_three_values_witness :
    (SyncManager.new SyncConfig.default).interpolation_speed_ratio
        = 1 / (SyncManager.new SyncConfig.default).config.speedup_factor
    ∨ (SyncManager.new SyncConfig.default).interpolation_speed_ratio = 1
    ∨ (SyncManager.new SyncConfig.default).interpolation_speed_ratio
        = (SyncManager.new SyncConfig.default).config.speedup_factor :=
  interpolation_speed_three_values _ (Reachable.new SyncConfig.default)

/-- C8 (counterexample): from a reachable state (a fresh manager once 7
pong samples have accumulated), a pair of `update` calls with zero elapsed
delta changes `current_server_time`: the first call completes the handshake
and `finalize` recomputes the server-time estimate (to 50 ms with
rtt = 100 ms), so the pair is not idempotent on every state. -/
theorem update_zero_delta_handshake_changes_server_time :
    (((SyncManager.new SyncConfig.default).update
          ⟨WrappedTime.default, 0, 0, 1⟩ ⟨⟨16000000⟩, 0⟩
          ⟨100000000, 10000000, 7⟩ ⟨0, 2⟩ 0).1.update
        ⟨WrappedTime.default, 0, 0, 1⟩ ⟨⟨16000000⟩, 0⟩
        ⟨100000000, 10000000, 7⟩ ⟨0, 2⟩ 0).1.current_server_time
      ≠ (SyncManager.new SyncConfig.default).current_server_time := by
  have h1 := update_flip (SyncManager.new SyncConfig.default)
    ⟨WrappedTime.default, 0, 0, 1⟩ ⟨⟨16000000⟩, 0⟩ ⟨100000000, 10000000, 7⟩
    ⟨0, 2⟩ 0 rfl (by norm_num [SyncManager.new, SyncConfig.default])
  have hs1 : ((SyncManager.new SyncConfig.default).update
      ⟨WrappedTime.default, 0, 0, 1⟩ ⟨⟨16000000⟩, 0⟩ ⟨100000000, 10000000, 7⟩
      ⟨0, 2⟩ 0).1.synced = true := by
    rw [h1]
    simp only [update_interpolation_time_synced, finalize_fst_synced]
  have h2 := update_synced _ ⟨WrappedTime.default, 0, 0, 1⟩ ⟨⟨16000000⟩, 0⟩
    ⟨100000000, 10000000, 7⟩ ⟨0, 2⟩ 0 hs1
  rw [h2]
  simp only [update_interpolation_time_cst, syncAdvance_zero]
  rw [h1]
  simp only [update_interpolation_time_cst]
  norm_num [SyncManager.finalize, SyncManager.update_current_server_time,
    newCurrentServerTimeEstimate, syncAdvance, SyncManager.new,
    SyncConfig.default, WrappedTime.default, WrappedTime.from_duration,
    Duration.as_micros, wtOfMicros, wtAddDur, durMulQ]
  decide

/-- C8 (amended): for every state and arguments, the second of two zero-delta
`update` calls changes neither `interpolation_speed_ratio` nor
`current_server_time` (the pair is idempotent after the first call); if in
addition the first call does not complete the handshake — the manager is
already synced, or fewer than `handshake_pings` samples have accumulated —
then `current_server_time` is unchanged by the whole pair, and if the
manager is unsynced with too few samples the speed ratio is unchanged by the
pair as well.  (A handshake-completing zero-delta update does change
`current_server_time`, see the counterexample.) -/
theorem update_zero_delta_idempotent (sm : SyncManager) (time : TimeManager)
    (tm : TickManager) (ping : PingManager) (delay : InterpolationDelay)
    (ssi : Duration) (hd : time.delta = 0) :
    ((sm.update time tm ping delay ssi).1.update time tm ping delay
          ssi).1.interpolation_speed_ratio
        = (sm.update time tm ping delay ssi).1.interpolation_speed_ratio
    ∧ ((sm.update time tm ping delay ssi).1.update time tm ping delay
          ssi).1.current_server_time
        = (sm.update time tm ping delay ssi).1.current_server_time
    ∧ (sm.synced = true ∨ ping.sync_stats_len < sm.config.handshake_pings →
        ((sm.update time tm ping delay ssi).1.update time tm ping delay
            ssi).1.current_server_time = sm.current_server_time)
    ∧ (sm.synced = false → ping.sync_stats_len < sm.config.handshake_pings →
        ((sm.update time tm ping delay ssi).1.update time tm ping delay
            ssi).1.interpolation_speed_ratio
          = sm.interpolation_speed_ratio) := by
  by_cases hs : sm.synced = true
  · have h1 := update_synced sm time tm ping delay ssi hs
    have e1 : (sm.update time tm ping delay ssi).1
        = sm.update_interpolation_time delay ssi tm := by
      rw [h1, syncAdvance_zero sm time hd]
    have hs1 : (sm.update time tm ping delay ssi).1.synced = true := by
      rw [e1, update_interpolation_time_synced]
      exact hs
    have h2 := update_synced _ time tm ping delay ssi hs1
    have e2 : ((sm.update time tm ping delay ssi).1.update time tm ping delay
          ssi).1
        = (sm.update time tm ping delay ssi).1.update_interpolation_time
            delay ssi tm := by
      rw [h2, syncAdvance_zero _ time hd]
    refine ⟨?_, ?_, ?_, ?_⟩
    · rw [e2, e1]
      rfl
    · rw [e2, e1]
      rfl
    · intro hor
      rw [e2, e1]
      rfl
    · intro hf _
      rw [hf] at hs
      exact (Bool.false_ne_true hs).elim
  · have hs2 : sm.synced = false := by
      cases hb : sm.synced
      · rfl
      · exact absurd hb hs
    by_cases hp : sm.config.handshake_pings ≤ ping.sync_stats_len
    · have h1 := update_flip sm time tm ping delay ssi hs2 hp
      have hs1 : (sm.update time tm ping delay ssi).1.synced = true := by
        rw [h1]
        simp only [update_interpolation_time_synced, finalize_fst_synced]
      have h2 := update_synced _ time tm ping delay ssi hs1
      have e2 : ((sm.update time tm ping delay ssi).1.update time tm ping delay
            ssi).1
          = (sm.update time tm ping delay ssi).1.update_interpolation_time
              delay ssi tm := by
        rw [h2, syncAdvance_zero _ time hd]
      refine ⟨?_, ?_, ?_, ?_⟩
      · rw [e2, h1]
        rfl
      · rw [e2, update_interpolation_time_cst]
      · intro hor
        rcases hor with h | h
        · rw [hs2] at h
          exact (Bool.false_ne_true h).elim
        · omega
      · intro _ hlt
        omega
    · have e1 : (sm.update time tm ping delay ssi).1 = sm := by
        rw [update_unsynced_noflip sm time tm ping delay ssi hs2 (by omega),
          syncAdvance_zero sm time hd]
      refine ⟨?_, ?_, ?_, ?_⟩
      · rw [e1, e1]
      · rw [e1, e1]
      · intro hor
        rw [e1, e1]
      · intro _ _
        rw [e1, e1]

/-- C8 (witness): the amended idempotence instantiated on a fresh, unsynced
manager with no samples and a zero frame delta: the pair of updates leaves
`interpolation_speed_ratio` at its initial value. -/
theorem update_zero_delta_idempotent_witness :
    (((SyncManager.new SyncConfig.default).update
          ⟨WrappedTime.default, 0, 0, 1⟩ ⟨⟨16000000⟩, 0⟩
          ⟨100000000, 10000000, 0⟩ ⟨0, 2⟩ 0).1.update
        ⟨WrappedTime.default, 0, 0, 1⟩ ⟨⟨16000000⟩, 0⟩
        ⟨100000000, 10000000, 0⟩ ⟨0, 2⟩ 0).1.interpolation_speed_ratio
      = (SyncManager.new SyncConfig.default).interpolation_speed_ratio :=
  (update_zero_delta_idempotent _ _ _ _ _ _ rfl).2.2.2 rfl
    (by norm_num [SyncManager.new, SyncConfig.default])

end LightyearSpec
